import Mathlib

/-!
Verification of the SecShare transfer engine (src/SecShare.py, src/main.py).

Python dictionaries are embedded as association lists with unique-key
semantics (`dictFind`, `dictInsert`, `dictErase`).  Byte strings (passwords,
salts, hashes) are `List Nat`.  Wall-clock instants are `Int` (the code
stores ISO strings and compares the parsed datetimes, which is order-
isomorphic to comparing the instants).  The calendar day used by the lazy
quota reset is a `String`, exactly as in the code
(`datetime.now().strftime` compared with `!=`).

The library primitives the code calls (PBKDF2HMAC-SHA256 key derivation,
urlsafe base64 encoding/decoding, Fernet encryption) are parameters of the
embedding, bundled in `Crypto`; base64 decoding returns `none` where the
Python function raises.
-/

namespace SecShare

/-- Association-list lookup: Python `d[k]` / `k in d`. -/
def dictFind {α β : Type} [DecidableEq α] : List (α × β) → α → Option β
  | [], _ => none
  | (k, v) :: rest, key => if k = key then some v else dictFind rest key

/-- Association-list store: Python `d[k] = v` (replaces the existing
binding or appends a new one). -/
def dictInsert {α β : Type} [DecidableEq α] : List (α × β) → α → β → List (α × β)
  | [], key, val => [(key, val)]
  | (k, v) :: rest, key, val =>
    if k = key then (key, val) :: rest else (k, v) :: dictInsert rest key val

/-- Association-list removal: Python `del d[k]`. -/
def dictErase {α β : Type} [DecidableEq α] : List (α × β) → α → List (α × β)
  | [], _ => []
  | (k, v) :: rest, key =>
    if k = key then dictErase rest key else (k, v) :: dictErase rest key

theorem dictFind_insert_self {α β : Type} [DecidableEq α]
    (l : List (α × β)) (k : α) (v : β) :
    dictFind (dictInsert l k v) k = some v := by
  induction l with
  | nil => simp [dictInsert, dictFind]
  | cons kv rest ih =>
    obtain ⟨a, b⟩ := kv
    by_cases h : a = k
    · simp [dictInsert, dictFind, h]
    · simp [dictInsert, dictFind, h, ih]

theorem dictFind_insert_ne {α β : Type} [DecidableEq α]
    (l : List (α × β)) (k k' : α) (v : β) (h : k' ≠ k) :
    dictFind (dictInsert l k v) k' = dictFind l k' := by
  have h' : ¬ k = k' := fun e => h e.symm
  induction l with
  | nil => simp [dictInsert, dictFind, h']
  | cons kv rest ih =>
    obtain ⟨a, b⟩ := kv
    by_cases hk : a = k
    · subst hk
      simp [dictInsert, dictFind, h']
    · by_cases hk' : a = k'
      · simp [dictInsert, dictFind, hk, hk', h]
      · simp [dictInsert, dictFind, hk, hk', ih]

theorem dictFind_erase_self {α β : Type} [DecidableEq α]
    (l : List (α × β)) (k : α) :
    dictFind (dictErase l k) k = none := by
  induction l with
  | nil => simp [dictErase, dictFind]
  | cons kv rest ih =>
    obtain ⟨a, b⟩ := kv
    by_cases h : a = k
    · simp [dictErase, h, ih]
    · simp [dictErase, dictFind, h, ih]

theorem dictFind_erase_ne {α β : Type} [DecidableEq α]
    (l : List (α × β)) (k k' : α) (h : k' ≠ k) :
    dictFind (dictErase l k) k' = dictFind l k' := by
  have h' : ¬ k = k' := fun e => h e.symm
  induction l with
  | nil => simp [dictErase]
  | cons kv rest ih =>
    obtain ⟨a, b⟩ := kv
    by_cases hk : a = k
    · subst hk
      simp [dictErase, dictFind, h', ih]
    · by_cases hk' : a = k'
      · simp [dictErase, dictFind, hk, hk', h]
      · simp [dictErase, dictFind, hk, hk', ih]

theorem dictInsert_of_find_eq {α β : Type} [DecidableEq α]
    (l : List (α × β)) (k : α) (v : β) (h : dictFind l k = some v) :
    dictInsert l k v = l := by
  induction l with
  | nil => simp [dictFind] at h
  | cons kv rest ih =>
    obtain ⟨a, b⟩ := kv
    by_cases hk : a = k
    · subst hk
      simp [dictFind] at h
      simp [dictInsert, h]
    · simp [dictFind, hk] at h
      simp [dictInsert, hk, ih h]

/-- The external cryptographic primitives the engine calls:
`kdf pw salt` is `PBKDF2HMAC(SHA256, length=32, salt, 100000).derive(pw)`,
`b64e` is `base64.urlsafe_b64encode`, and `b64d` is
`base64.urlsafe_b64decode`, returning `none` where Python raises. -/
structure Crypto where
  kdf : List Nat → List Nat → List Nat
  b64e : List Nat → List Nat
  b64d : List Nat → Option (List Nat)

/-- `SecShareBot._hash_password`: a fresh 16-byte salt is concatenated with
the base64 of the derived key, and the whole packed value is base64-encoded.
The salt is passed explicitly (`os.urandom(16)` in the code). -/
def hash_password (c : Crypto) (salt password : List Nat) : List Nat :=
  c.b64e (salt ++ c.b64e (c.kdf password salt))

/-- `SecShareBot._verify_password`: decode the hash, split off the 16-byte
salt, re-derive, and compare; any decoding failure yields `false` (the code
catches every exception and returns `False`). -/
def verify_password (c : Crypto) (password password_hash : List Nat) : Bool :=
  match c.b64d password_hash with
  | none => false
  | some decoded =>
    decoded.drop 16 == c.b64e (c.kdf password (decoded.take 16))

theorem take_len_append {α : Type} (l₁ l₂ : List α) :
    (l₁ ++ l₂).take l₁.length = l₁ := by
  induction l₁ with
  | nil => simp
  | cons a rest ih => simp [ih]

theorem drop_len_append {α : Type} (l₁ l₂ : List α) :
    (l₁ ++ l₂).drop l₁.length = l₂ := by
  induction l₁ with
  | nil => simp
  | cons a rest ih => simp [ih]

/-- C5: with a base64 pair that round-trips, a password verifies against its
own hash; any password whose derived key differs is rejected; and any hash
that fails to decode yields `false` rather than an error. -/
theorem c5_hash_verify_roundtrip (c : Crypto) (salt p : List Nat)
    (hB : ∀ l, c.b64d (c.b64e l) = some l)
    (hs : salt.length = 16) :
    verify_password c p (hash_password c salt p) = true
    ∧ (∀ q, c.kdf q salt ≠ c.kdf p salt →
        verify_password c q (hash_password c salt p) = false)
    ∧ (∀ q h, c.b64d h = none → verify_password c q h = false) := by
  have hdec : c.b64d (hash_password c salt p)
      = some (salt ++ c.b64e (c.kdf p salt)) := hB _
  have htake : (salt ++ c.b64e (c.kdf p salt)).take 16 = salt := by
    rw [← hs]; exact take_len_append _ _
  have hdrop : (salt ++ c.b64e (c.kdf p salt)).drop 16
      = c.b64e (c.kdf p salt) := by
    rw [← hs]; exact drop_len_append _ _
  have henc_inj : ∀ a b : List Nat, c.b64e a = c.b64e b → a = b := by
    intro a b hab
    have : some a = some b := by rw [← hB a, ← hB b, hab]
    exact Option.some.inj this
  refine ⟨?_, ?_, ?_⟩
  · simp [verify_password, hdec, htake, hdrop]
  · intro q hq
    simp only [verify_password, hdec, htake, hdrop]
    rw [beq_eq_false_iff_ne]
    intro heq
    exact hq (henc_inj _ _ heq.symm)
  · intro q h hh
    simp [verify_password, hh]

/-- Concrete instantiation of the abstract base64/KDF parameters used to
witness the crypto theorems. -/
def cW : Crypto where
  kdf := fun pw salt => pw ++ salt
  b64e := fun l => 0 :: l
  b64d := fun l =>
    match l with
    | 0 :: rest => some rest
    | _ => none

def saltW : List Nat := List.replicate 16 7

theorem c5_hash_verify_roundtrip_witness :
    verify_password cW [1] (hash_password cW saltW [1]) = true
    ∧ verify_password cW [2] (hash_password cW saltW [1]) = false
    ∧ verify_password cW [1] [9] = false := by
  have h := c5_hash_verify_roundtrip cW saltW [1]
    (fun l => rfl) (by simp [saltW])
  exact ⟨h.1, h.2.1 [2] (by decide), h.2.2 [1] [9] (by decide)⟩

/-- `User` dataclass of src/SecShare.py. -/
structure User where
  user_id : Int
  username : Option String
  is_premium : Bool := false
  files_sent_today : Nat := 0
  last_reset_date : String := ""
  total_transfers : Nat := 0
deriving DecidableEq

/-- `Transfer` dataclass of src/SecShare.py.  `created_at`/`expires_at` are
the instants the stored ISO strings denote. -/
structure Transfer where
  transfer_id : String
  sender_id : Int
  recipient_id : Option Int
  file_path : Option String
  encrypted_content : Option String
  password_hash : Option (List Nat)
  created_at : Int
  expires_at : Int
  is_file : Bool
  file_size : Option Nat := none
  file_name : Option String := none
deriving DecidableEq

/-- The `self.config` dictionary (only the keys the engine reads). -/
structure Config where
  free_file_size_limit : Nat
  premium_file_size_limit : Nat
  free_transfers_per_hour : Nat
  premium_transfers_per_hour : Nat
  transfer_expiry_minutes : Nat
deriving DecidableEq

/-- The values installed by `SecShareBot.__init__`. -/
def defaultConfig : Config where
  free_file_size_limit := 50 * 1024 * 1024
  premium_file_size_limit := 1024 * 1024 * 1024
  free_transfers_per_hour := 5
  premium_transfers_per_hour := 20
  transfer_expiry_minutes := 15

/-- The mutable state of a `SecShareBot` plus its environment: the two
dictionaries, the admin/superuser id sets, the config, the set of blob
files on disk (`temp_files`), and the last JSON snapshot written by
`_save_data` (`data/users.json`, `data/transfers.json`). -/
structure BotState where
  users : List (Int × User)
  transfers : List (String × Transfer)
  admin_ids : List Int
  superuser_ids : List Int
  config : Config
  files : List String
  persisted_users : List (Int × User)
  persisted_transfers : List (String × Transfer)
deriving DecidableEq

/-- `SecShareBot._save_data`: snapshot both dictionaries to disk. -/
def saveData (st : BotState) : BotState :=
  { st with persisted_users := st.users, persisted_transfers := st.transfers }

/-- `SecShareBot.is_admin`. -/
def isAdmin (st : BotState) (uid : Int) : Bool :=
  st.admin_ids.contains uid || st.superuser_ids.contains uid

/-- Fallback user for the always-successful lookup at the end of
`_get_user` (never reached on the paths the theorems use). -/
def defaultUser : User :=
  { user_id := 0, username := none }

/-- `SecShareBot._get_user`: create the record if absent, force
`is_premium` for admins/superusers, save, and return the record. -/
def getUser (st : BotState) (uid : Int) (username : Option String) :
    User × BotState :=
  let users1 :=
    match dictFind st.users uid with
    | some _ => st.users
    | none => dictInsert st.users uid { user_id := uid, username := username }
  let users2 :=
    if isAdmin st uid then
      match dictFind users1 uid with
      | some u => dictInsert users1 uid { u with is_premium := true }
      | none => users1
    else users1
  ((dictFind users2 uid).getD defaultUser, saveData { st with users := users2 })

/-- Condensed text of the f-string shown on quota denial. -/
def quotaErrorMsg (maxTransfers : Nat) : String :=
  "daily limit of " ++ toString maxTransfers ++ " transfers reached"

/-- Condensed text of the f-string shown on size denial. -/
def sizeErrorMsg (maxMb : Nat) : String :=
  "file too large, max " ++ toString maxMb ++ " MB"

/-- The lazy daily reset applied by `_check_user_limits` when the stored
date differs from today. -/
def resetUser (u : User) (today : String) : User :=
  { u with files_sent_today := 0, last_reset_date := today }

/-- The counter bump applied after a successful create. -/
def bumpUser (u : User) : User :=
  { u with files_sent_today := u.files_sent_today + 1,
           total_transfers := u.total_transfers + 1 }

theorem resetUser_files (u : User) (d : String) :
    (resetUser u d).files_sent_today = 0 := rfl

theorem resetUser_premium (u : User) (d : String) :
    (resetUser u d).is_premium = u.is_premium := rfl

theorem resetUser_date (u : User) (d : String) :
    (resetUser u d).last_reset_date = d := rfl

theorem bumpUser_files (u : User) :
    (bumpUser u).files_sent_today = u.files_sent_today + 1 := rfl

theorem bumpUser_date (u : User) :
    (bumpUser u).last_reset_date = u.last_reset_date := rfl

/-- `SecShareBot._check_user_limits`: admins bypass; otherwise lazily reset
the daily counter when the stored date differs from today, then compare the
counter with the tier ceiling.  (Both verdicts leave the same state, so the
state component is shared.) -/
def checkUserLimits (st : BotState) (uid : Int) (today : String) :
    (Bool × String) × BotState :=
  if isAdmin st uid then ((true, ""), st)
  else
    let gu := getUser st uid none
    let user1 :=
      if gu.1.last_reset_date ≠ today then resetUser gu.1 today
      else gu.1
    let maxTransfers :=
      if user1.is_premium then st.config.premium_transfers_per_hour
      else st.config.free_transfers_per_hour
    ((if user1.files_sent_today ≥ maxTransfers then
        (false, quotaErrorMsg maxTransfers)
      else (true, "")),
     { gu.2 with users := dictInsert gu.2.users uid user1 })

/-- `SecShareBot._check_file_size_limit`: admins bypass; otherwise compare
the size against the tier ceiling.  (No daily-counter reset here.) -/
def checkFileSizeLimit (st : BotState) (file_size : Nat) (uid : Int) :
    (Bool × String) × BotState :=
  if isAdmin st uid then ((true, ""), st)
  else
    let gu := getUser st uid none
    let maxSize :=
      if gu.1.is_premium then st.config.premium_file_size_limit
      else st.config.free_file_size_limit
    ((if file_size > maxSize then
        (false, sizeErrorMsg (maxSize / (1024 * 1024)))
      else (true, "")),
     gu.2)

/-- Python truthiness of the optional password argument: `None` and the
empty string are both falsy. -/
def pwTruthy : Option (List Nat) → Bool
  | none => false
  | some p => !p.isEmpty

/-- Python truthiness of the stored `password_hash` field. -/
def hashTruthy : Option (List Nat) → Bool
  | none => false
  | some h => !h.isEmpty

/-- `SecShareBot._delete_transfer`: remove the blob file if it exists,
delete the record, save. -/
def deleteTransfer (st : BotState) (tid : String) : BotState :=
  match dictFind st.transfers tid with
  | none => st
  | some t =>
    let files1 :=
      match t.file_path with
      | some p => if st.files.contains p then st.files.erase p else st.files
      | none => st.files
    saveData { st with transfers := dictErase st.transfers tid, files := files1 }

/-- State with the transfers dictionary replaced (notation for the
`self.transfers[transfer_id] = transfer` assignment). -/
def withTransfers (st : BotState) (l : List (String × Transfer)) : BotState :=
  { st with transfers := l }

/-- The user-statistics update both create operations end with:
`user.files_sent_today += 1; user.total_transfers += 1; self._save_data()`
after a `self._get_user(user_id)`. -/
def recordSent (st : BotState) (uid : Int) : BotState :=
  let gu := getUser st uid none
  saveData { gu.2 with users := dictInsert gu.2.users uid (bumpUser gu.1) }

/-- The `Transfer` record built by `create_text_transfer`. -/
def newTextTransfer (c : Crypto) (st : BotState) (uid : Int)
    (content : String) (password : Option (List Nat)) (now : Int)
    (fresh_id : String) (salt : List Nat) (encrypt : String → String) :
    Transfer :=
  { transfer_id := fresh_id
    sender_id := uid
    recipient_id := none
    file_path := none
    encrypted_content := some (encrypt content)
    password_hash :=
      if pwTruthy password then some (hash_password c salt (password.getD []))
      else none
    created_at := now
    expires_at := now + (st.config.transfer_expiry_minutes : Int) * 60
    is_file := false }

/-- `SecShareBot.create_text_transfer`.  The nondeterministic inputs are
explicit: `today`/`now` from the clock, `fresh_id` from
`secrets.token_urlsafe(16)`, `salt` from `os.urandom(16)`, and `encrypt`
is the Fernet `cipher_suite`.  A raised `ValueError` is `Except.error`;
state mutated before the raise is kept, as in Python. -/
def createTextTransfer (c : Crypto) (st : BotState) (uid : Int)
    (content : String) (password : Option (List Nat)) (today : String)
    (now : Int) (fresh_id : String) (salt : List Nat)
    (encrypt : String → String) : Except String String × BotState :=
  let r := checkUserLimits st uid today
  if !r.1.1 then (Except.error r.1.2, r.2)
  else
    let t := newTextTransfer c st uid content password now fresh_id salt encrypt
    (Except.ok fresh_id,
      recordSent (withTransfers r.2 (dictInsert r.2.transfers fresh_id t)) uid)

/-- The `Transfer` record built by `create_file_transfer`. -/
def newFileTransfer (c : Crypto) (st : BotState) (uid : Int)
    (file_path file_name : String) (file_size : Nat)
    (password : Option (List Nat)) (now : Int) (fresh_id : String)
    (salt : List Nat) : Transfer :=
  { transfer_id := fresh_id
    sender_id := uid
    recipient_id := none
    file_path := some file_path
    encrypted_content := none
    password_hash :=
      if pwTruthy password then some (hash_password c salt (password.getD []))
      else none
    created_at := now
    expires_at := now + (st.config.transfer_expiry_minutes : Int) * 60
    is_file := true
    file_size := some file_size
    file_name := some file_name }

/-- `SecShareBot.create_file_transfer`: like the text variant, with the
size check after the count check and a file payload held by reference. -/
def createFileTransfer (c : Crypto) (st : BotState) (uid : Int)
    (file_path file_name : String) (file_size : Nat)
    (password : Option (List Nat)) (today : String) (now : Int)
    (fresh_id : String) (salt : List Nat) : Except String String × BotState :=
  let r := checkUserLimits st uid today
  if !r.1.1 then (Except.error r.1.2, r.2)
  else
    let r2 := checkFileSizeLimit r.2 file_size uid
    if !r2.1.1 then (Except.error r2.1.2, r2.2)
    else
      let t := newFileTransfer c st uid file_path file_name file_size password
        now fresh_id salt
      (Except.ok fresh_id,
        recordSent (withTransfers r2.2 (dictInsert r2.2.transfers fresh_id t)) uid)

/-- `SecShareBot.get_transfer`: absent → `None`; expired → evict and
`None`; password-protected and password absent / empty / failing
verification → `None`; otherwise the record. -/
def getTransfer (c : Crypto) (st : BotState) (tid : String)
    (password : Option (List Nat)) (now : Int) :
    Option Transfer × BotState :=
  match dictFind st.transfers tid with
  | none => (none, st)
  | some t =>
    if t.expires_at < now then (none, deleteTransfer st tid)
    else if hashTruthy t.password_hash then
      if !pwTruthy password then (none, st)
      else if !verify_password c (password.getD []) (t.password_hash.getD [])
      then (none, st)
      else (some t, st)
    else (some t, st)

/-- `SecShareBot.confirm_received`: set the recipient, then delete. -/
def confirmReceived (st : BotState) (tid : String) (rid : Int) : BotState :=
  match dictFind st.transfers tid with
  | none => st
  | some t =>
    deleteTransfer
      { st with transfers :=
          dictInsert st.transfers tid { t with recipient_id := some rid } }
      tid

/-- The dictionary returned by `SecShareBot.get_user_stats`. -/
structure UserStats where
  is_premium : Bool
  transfers_used_today : Nat
  transfers_remaining_today : Int
  total_transfers : Nat
  max_file_size_mb : Nat
  max_transfers_per_day : Nat
deriving DecidableEq

/-- `SecShareBot.get_user_stats`. -/
def getUserStats (st : BotState) (uid : Int) : UserStats × BotState :=
  let gu := getUser st uid none
  let maxTransfers :=
    if gu.1.is_premium then st.config.premium_transfers_per_hour
    else st.config.free_transfers_per_hour
  let maxSize :=
    if gu.1.is_premium then st.config.premium_file_size_limit
    else st.config.free_file_size_limit
  ({ is_premium := gu.1.is_premium
     transfers_used_today := gu.1.files_sent_today
     transfers_remaining_today :=
       (maxTransfers : Int) - (gu.1.files_sent_today : Int)
     total_transfers := gu.1.total_transfers
     max_file_size_mb := maxSize / (1024 * 1024)
     max_transfers_per_day := maxTransfers }, gu.2)

/-- The `delete_` branch of `SecShareTelegramBot.handle_callback`
(src/main.py): fetch the transfer with **no password**, and delete it only
if it came back and its sender is the requester.  The boolean is whether
the success message was shown. -/
def handleDeleteCallback (c : Crypto) (st : BotState) (tid : String)
    (uid : Int) (now : Int) : Bool × BotState :=
  let g := getTransfer c st tid none now
  match g.1 with
  | some t => if t.sender_id = uid then (true, deleteTransfer g.2 tid) else (false, g.2)
  | none => (false, g.2)

/-- Modelled from the spec: the repository only references its periodic
cleanup task (the `__init__` comment in src/SecShare.py defers starting
it) and ships no implementation, so `sweepExpired` follows §4.4 of the
spec: scan all records, evict every one with `expiresAt <= now`, release
the blobs, and return the number evicted. -/
def sweepExpired (st : BotState) (now : Int) : Nat × BotState :=
  let expired := st.transfers.filter (fun kv => decide (kv.2.expires_at ≤ now))
  let remaining :=
    st.transfers.filter (fun kv => !decide (kv.2.expires_at ≤ now))
  let files1 := expired.foldl
    (fun fs kv =>
      match kv.2.file_path with
      | some p => fs.erase p
      | none => fs)
    st.files
  (expired.length, saveData { st with transfers := remaining, files := files1 })

theorem getTransfer_of_find_none (c : Crypto) (st : BotState) (tid : String)
    (password : Option (List Nat)) (now : Int)
    (h : dictFind st.transfers tid = none) :
    getTransfer c st tid password now = (none, st) := by
  simp [getTransfer, h]

theorem confirmReceived_of_find_none (st : BotState) (tid : String) (rid : Int)
    (h : dictFind st.transfers tid = none) :
    confirmReceived st tid rid = st := by
  simp [confirmReceived, h]

theorem dictFind_confirm_none (st : BotState) (tid : String) (rid : Int) :
    dictFind (confirmReceived st tid rid).transfers tid = none := by
  unfold confirmReceived
  cases hf : dictFind st.transfers tid with
  | none => exact hf
  | some t =>
    simp only [deleteTransfer, dictFind_insert_self]
    simp [saveData, dictFind_erase_self]

theorem getUser_known (st : BotState) (uid : Int) (u : User) (un : Option String)
    (hadm : isAdmin st uid = false)
    (hu : dictFind st.users uid = some u) :
    getUser st uid un = (u, saveData st) := by
  simp [getUser, hu, hadm]

/-- C1: once a transfer present in the store has been confirmed, any later
fetch of it returns `None` whatever password is supplied, and a second
confirmation leaves the state exactly as it was. -/
theorem c1_confirm_at_most_once (c : Crypto) (st : BotState) (tid : String)
    (rid rid2 : Int) (t : Transfer)
    (hfind : dictFind st.transfers tid = some t) :
    (∀ password now,
      (getTransfer c (confirmReceived st tid rid) tid password now).1 = none)
    ∧ confirmReceived (confirmReceived st tid rid) tid rid2
        = confirmReceived st tid rid := by
  have hnone := dictFind_confirm_none st tid rid
  refine ⟨?_, ?_⟩
  · intro password now
    rw [getTransfer_of_find_none c _ tid password now hnone]
  · exact confirmReceived_of_find_none _ tid rid2 hnone

/-- Fixture: an unprotected live text transfer from sender 1, with
user 9 configured as admin. -/
def tA : Transfer :=
  { transfer_id := "A", sender_id := 1, recipient_id := none,
    file_path := none, encrypted_content := some "ct", password_hash := none,
    created_at := 0, expires_at := 900, is_file := false }

def stA : BotState :=
  { users := [], transfers := [("A", tA)], admin_ids := [9],
    superuser_ids := [], config := defaultConfig, files := [],
    persisted_users := [], persisted_transfers := [] }

theorem c1_confirm_at_most_once_witness :
    (getTransfer cW (confirmReceived stA "A" 2) "A" none 0).1 = none
    ∧ confirmReceived (confirmReceived stA "A" 2) "A" 3
        = confirmReceived stA "A" 2 :=
  ⟨(c1_confirm_at_most_once cW stA "A" 2 3 tA rfl).1 none 0,
   (c1_confirm_at_most_once cW stA "A" 2 3 tA rfl).2⟩

/-- C2: on a live password-protected transfer, fetching with no password or
with a non-verifying password yields `None`, fetching with a verifying
non-empty password yields the record, and every successful fetch passed
password verification. -/
theorem c2_password_gate (c : Crypto) (st : BotState) (tid : String)
    (t : Transfer) (ph : List Nat) (now : Int)
    (hfind : dictFind st.transfers tid = some t)
    (hph : t.password_hash = some ph) (hne : ph ≠ [])
    (hexp : ¬ t.expires_at < now) :
    (getTransfer c st tid none now).1 = none
    ∧ (∀ pw, verify_password c pw ph = false →
        (getTransfer c st tid (some pw) now).1 = none)
    ∧ (∀ pw, pw ≠ [] → verify_password c pw ph = true →
        (getTransfer c st tid (some pw) now).1 = some t)
    ∧ (∀ password, (getTransfer c st tid password now).1 ≠ none →
        ∃ pw, password = some pw ∧ verify_password c pw ph = true) := by
  have hht : hashTruthy (some ph) = true := by
    cases ph with
    | nil => exact absurd rfl hne
    | cons a l => rfl
  refine ⟨?_, ?_, ?_, ?_⟩
  · simp [getTransfer, hfind, hexp, hph, hht, pwTruthy]
  · intro pw hv
    cases pw with
    | nil => simp [getTransfer, hfind, hexp, hph, hht, pwTruthy]
    | cons a l =>
      simp [getTransfer, hfind, hexp, hph, hht, pwTruthy, hv]
  · intro pw hpw hv
    have hpt : pwTruthy (some pw) = true := by
      cases pw with
      | nil => exact absurd rfl hpw
      | cons a l => rfl
    simp [getTransfer, hfind, hexp, hph, hht, hpt, hv]
  · intro password hres
    cases password with
    | none => simp [getTransfer, hfind, hexp, hph, hht, pwTruthy] at hres
    | some pw =>
      refine ⟨pw, rfl, ?_⟩
      by_contra hv
      have hv' : verify_password c pw ph = false := by
        cases h2 : verify_password c pw ph
        · rfl
        · exact absurd h2 hv
      cases pw with
      | nil => simp [getTransfer, hfind, hexp, hph, hht, pwTruthy] at hres
      | cons a l =>
        simp [getTransfer, hfind, hexp, hph, hht, pwTruthy, hv'] at hres

/-- Fixture: a live transfer protected by the `cW`-hash of password `[1]`
with salt `saltW`. -/
def tP : Transfer :=
  { transfer_id := "P", sender_id := 1, recipient_id := none,
    file_path := none, encrypted_content := some "ct",
    password_hash := some (hash_password cW saltW [1]),
    created_at := 0, expires_at := 900, is_file := false }

def stP : BotState :=
  { users := [], transfers := [("P", tP)], admin_ids := [],
    superuser_ids := [], config := defaultConfig, files := [],
    persisted_users := [], persisted_transfers := [] }

theorem c2_password_gate_witness :
    (getTransfer cW stP "P" none 0).1 = none
    ∧ (getTransfer cW stP "P" (some [2]) 0).1 = none
    ∧ (getTransfer cW stP "P" (some [1]) 0).1 = some tP := by
  have h := c2_password_gate cW stP "P" tP (hash_password cW saltW [1]) 0
    rfl rfl (by decide) (by decide)
  exact ⟨h.1, h.2.1 [2] (by decide), h.2.2.1 [1] (by decide) (by decide)⟩

theorem dictFind_filter_pred {α β : Type} [DecidableEq α]
    (l : List (α × β)) (q : α × β → Bool) (k : α) (v : β)
    (h : dictFind (l.filter q) k = some v) : q (k, v) = true := by
  induction l with
  | nil => simp [dictFind] at h
  | cons kv rest ih =>
    obtain ⟨a, b⟩ := kv
    by_cases hq : q (a, b) = true
    · rw [List.filter_cons_of_pos hq] at h
      by_cases hk : a = k
      · subst hk
        simp [dictFind] at h
        rw [← h]
        exact hq
      · simp [dictFind, hk] at h
        exact ih h
    · rw [List.filter_cons_of_neg (by simpa using hq)] at h
      exact ih h

theorem length_filter_add_length_filter_not {α : Type} (l : List α)
    (p : α → Bool) :
    (l.filter p).length + (l.filter (fun a => !p a)).length = l.length := by
  induction l with
  | nil => rfl
  | cons a rest ih =>
    cases h : p a with
    | true =>
      simp [List.filter_cons, h]
      omega
    | false =>
      simp [List.filter_cons, h]
      omega

theorem dictFind_deleteTransfer_self (st : BotState) (tid : String) :
    dictFind (deleteTransfer st tid).transfers tid = none := by
  unfold deleteTransfer
  cases hf : dictFind st.transfers tid with
  | none => exact hf
  | some t => simp [saveData, dictFind_erase_self]

theorem deleteTransfer_blob_released (st : BotState) (tid : String)
    (t : Transfer) (p : String)
    (hfind : dictFind st.transfers tid = some t) (hnd : st.files.Nodup)
    (hp : t.file_path = some p) :
    p ∉ (deleteTransfer st tid).files := by
  simp only [deleteTransfer, hfind, hp]
  by_cases hc : st.files.contains p
  · simp only [hc, if_true, saveData]
    exact hnd.not_mem_erase
  · simp only [hc, if_false, saveData]
    simpa using hc

/-- C3: fetching an expired transfer returns `None`, removes the record
and releases its blob file; the (spec-modelled) sweep leaves no record
with `expires_at ≤ now` behind and reports exactly the number evicted. -/
theorem c3_expiry_eviction (c : Crypto) (st : BotState) (tid : String)
    (t : Transfer) (now : Int) (password : Option (List Nat))
    (hfind : dictFind st.transfers tid = some t)
    (hexp : t.expires_at < now)
    (hnd : st.files.Nodup) :
    (getTransfer c st tid password now).1 = none
    ∧ dictFind (getTransfer c st tid password now).2.transfers tid = none
    ∧ (∀ p, t.file_path = some p →
        p ∉ (getTransfer c st tid password now).2.files)
    ∧ (∀ k v, dictFind (sweepExpired st now).2.transfers k = some v →
        ¬ v.expires_at ≤ now)
    ∧ (sweepExpired st now).1 + (sweepExpired st now).2.transfers.length
        = st.transfers.length := by
  have hget : getTransfer c st tid password now = (none, deleteTransfer st tid) := by
    simp [getTransfer, hfind, hexp]
  refine ⟨by rw [hget], ?_, ?_, ?_, ?_⟩
  · rw [hget]
    exact dictFind_deleteTransfer_self st tid
  · intro p hp
    rw [hget]
    exact deleteTransfer_blob_released st tid t p hfind hnd hp
  · intro k v hv
    simp only [sweepExpired, saveData] at hv
    have h2 : (!decide (v.expires_at ≤ now)) = true :=
      dictFind_filter_pred st.transfers _ k v hv
    intro hle
    rw [decide_eq_true hle] at h2
    exact absurd h2 (by decide)
  · simp only [sweepExpired, saveData]
    exact length_filter_add_length_filter_not st.transfers _

/-- Fixture: an expired file transfer whose blob `"f"` is on disk. -/
def tB : Transfer :=
  { transfer_id := "B", sender_id := 1, recipient_id := none,
    file_path := some "f", encrypted_content := none, password_hash := none,
    created_at := 0, expires_at := 10, is_file := true,
    file_size := some 4, file_name := some "n" }

def stB : BotState :=
  { users := [], transfers := [("B", tB)], admin_ids := [],
    superuser_ids := [], config := defaultConfig, files := ["f"],
    persisted_users := [], persisted_transfers := [] }

theorem c3_expiry_eviction_witness :
    (getTransfer cW stB "B" none 1000).1 = none
    ∧ dictFind (getTransfer cW stB "B" none 1000).2.transfers "B" = none
    ∧ "f" ∉ (getTransfer cW stB "B" none 1000).2.files
    ∧ (sweepExpired stB 1000).1 + (sweepExpired stB 1000).2.transfers.length
        = stB.transfers.length := by
  have h := c3_expiry_eviction cW stB "B" tB 1000 none rfl (by decide) (by decide)
  exact ⟨h.1, h.2.1, h.2.2.1 "f" rfl, h.2.2.2.2⟩

theorem checkUserLimits_at_ceiling (st : BotState) (uid : Int) (u : User)
    (today : String)
    (hadm : isAdmin st uid = false)
    (hu : dictFind st.users uid = some u)
    (hdate : u.last_reset_date = today)
    (hceil : (if u.is_premium then st.config.premium_transfers_per_hour
              else st.config.free_transfers_per_hour) ≤ u.files_sent_today) :
    checkUserLimits st uid today
      = ((false, quotaErrorMsg (if u.is_premium
            then st.config.premium_transfers_per_hour
            else st.config.free_transfers_per_hour)),
         saveData st) := by
  have hins := dictInsert_of_find_eq st.users uid u hu
  simp [checkUserLimits, hadm, getUser_known st uid u none hadm hu, hdate,
    ge_iff_le, hceil, saveData, hins]

theorem checkUserLimits_day_rollover (st : BotState) (uid : Int) (u : User)
    (today : String)
    (hadm : isAdmin st uid = false)
    (hu : dictFind st.users uid = some u)
    (hday : ¬ u.last_reset_date = today)
    (hpos : 0 < (if u.is_premium then st.config.premium_transfers_per_hour
              else st.config.free_transfers_per_hour)) :
    checkUserLimits st uid today
      = ((true, ""),
         { saveData st with
           users := dictInsert st.users uid (resetUser u today) }) := by
  have hno : ¬ ((if u.is_premium
      then st.config.premium_transfers_per_hour
      else st.config.free_transfers_per_hour) ≤ 0) := by omega
  simp [checkUserLimits, hadm, getUser_known st uid u none hadm hu, hday,
    hno, saveData, resetUser_files, resetUser_premium, ge_iff_le]

theorem recordSent_known (st : BotState) (uid : Int) (u : User)
    (hadm : isAdmin st uid = false)
    (hu : dictFind st.users uid = some u) :
    recordSent st uid
      = saveData { saveData st with
          users := dictInsert st.users uid (bumpUser u) } := by
  simp [recordSent, getUser_known st uid u none hadm hu, saveData]

theorem createTextTransfer_denied (c : Crypto) (st : BotState) (uid : Int)
    (content : String) (password : Option (List Nat)) (today : String)
    (now : Int) (fresh_id : String) (salt : List Nat)
    (encrypt : String → String)
    (hcheck : (checkUserLimits st uid today).1.1 = false) :
    createTextTransfer c st uid content password today now fresh_id salt encrypt
      = (Except.error (checkUserLimits st uid today).1.2,
         (checkUserLimits st uid today).2) := by
  simp [createTextTransfer, hcheck]

theorem createFileTransfer_denied_quota (c : Crypto) (st : BotState)
    (uid : Int) (fp fn : String) (fsize : Nat)
    (password : Option (List Nat)) (today : String) (now : Int)
    (fresh_id : String) (salt : List Nat)
    (hcheck : (checkUserLimits st uid today).1.1 = false) :
    createFileTransfer c st uid fp fn fsize password today now fresh_id salt
      = (Except.error (checkUserLimits st uid today).1.2,
         (checkUserLimits st uid today).2) := by
  simp [createFileTransfer, hcheck]

theorem createTextTransfer_ok (c : Crypto) (st : BotState) (uid : Int)
    (content : String) (password : Option (List Nat)) (today : String)
    (now : Int) (fresh_id : String) (salt : List Nat)
    (encrypt : String → String)
    (hcheck : (checkUserLimits st uid today).1.1 = true) :
    createTextTransfer c st uid content password today now fresh_id salt encrypt
      = (Except.ok fresh_id,
         recordSent
           (withTransfers (checkUserLimits st uid today).2
             (dictInsert (checkUserLimits st uid today).2.transfers fresh_id
               (newTextTransfer c st uid content password now fresh_id salt
                 encrypt)))
           uid) := by
  simp [createTextTransfer, hcheck]

/-- C4: a non-privileged user whose counter has reached the tier ceiling
receives a quota error from both create operations and no transfer is
added; once the calendar day differs from the stored reset date, the
counter is reset and creation succeeds again. -/
theorem c4_quota_ceiling_and_reset (c : Crypto) (st : BotState) (uid : Int)
    (u : User) (content fp fn : String) (fsize : Nat)
    (password : Option (List Nat)) (today today2 : String) (now : Int)
    (fresh_id : String) (salt : List Nat) (encrypt : String → String)
    (hadm : isAdmin st uid = false)
    (hu : dictFind st.users uid = some u)
    (hdate : u.last_reset_date = today)
    (hceil : (if u.is_premium then st.config.premium_transfers_per_hour
              else st.config.free_transfers_per_hour) ≤ u.files_sent_today)
    (hday : ¬ u.last_reset_date = today2)
    (hpos : 0 < (if u.is_premium then st.config.premium_transfers_per_hour
              else st.config.free_transfers_per_hour)) :
    ((createTextTransfer c st uid content password today now fresh_id salt
        encrypt).1
      = Except.error (quotaErrorMsg (if u.is_premium
          then st.config.premium_transfers_per_hour
          else st.config.free_transfers_per_hour))
      ∧ (createTextTransfer c st uid content password today now fresh_id salt
          encrypt).2.transfers = st.transfers)
    ∧ ((createFileTransfer c st uid fp fn fsize password today now fresh_id
        salt).1
      = Except.error (quotaErrorMsg (if u.is_premium
          then st.config.premium_transfers_per_hour
          else st.config.free_transfers_per_hour))
      ∧ (createFileTransfer c st uid fp fn fsize password today now fresh_id
          salt).2.transfers = st.transfers)
    ∧ ((createTextTransfer c st uid content password today2 now fresh_id salt
        encrypt).1 = Except.ok fresh_id
      ∧ ∃ u2, dictFind (createTextTransfer c st uid content password today2
            now fresh_id salt encrypt).2.users uid = some u2
          ∧ u2.files_sent_today = 1 ∧ u2.last_reset_date = today2) := by
  have hq := checkUserLimits_at_ceiling st uid u today hadm hu hdate hceil
  have hc1 : (checkUserLimits st uid today).1.1 = false := by rw [hq]
  have hr := checkUserLimits_day_rollover st uid u today2 hadm hu hday hpos
  have hc2 : (checkUserLimits st uid today2).1.1 = true := by rw [hr]
  have hadm' : (st.admin_ids.contains uid || st.superuser_ids.contains uid)
      = false := hadm
  refine ⟨⟨?_, ?_⟩, ⟨?_, ?_⟩, ?_, ?_⟩
  · rw [createTextTransfer_denied c st uid content password today now fresh_id
      salt encrypt hc1, hq]
  · rw [createTextTransfer_denied c st uid content password today now fresh_id
      salt encrypt hc1, hq]
    rfl
  · rw [createFileTransfer_denied_quota c st uid fp fn fsize password today now
      fresh_id salt hc1, hq]
  · rw [createFileTransfer_denied_quota c st uid fp fn fsize password today now
      fresh_id salt hc1, hq]
    rfl
  · rw [createTextTransfer_ok c st uid content password today2 now fresh_id
      salt encrypt hc2]
  · rw [createTextTransfer_ok c st uid content password today2 now fresh_id
      salt encrypt hc2, hr]
    simp only [recordSent, getUser, saveData, isAdmin, withTransfers,
      dictFind_insert_self, hadm', Bool.false_eq_true, if_false,
      Option.getD_some]
    refine ⟨_, rfl, ?_, ?_⟩
    · rfl
    · rfl

/-- Fixture: a free-tier user at the default ceiling of 5 daily transfers,
last reset on 2024-01-01. -/
def uQ : User :=
  { user_id := 5, username := none, is_premium := false,
    files_sent_today := 5, last_reset_date := "2024-01-01",
    total_transfers := 5 }

def stQ : BotState :=
  { users := [(5, uQ)], transfers := [], admin_ids := [],
    superuser_ids := [], config := defaultConfig, files := [],
    persisted_users := [], persisted_transfers := [] }

theorem c4_quota_ceiling_and_reset_witness :
    (createTextTransfer cW stQ 5 "m" none "2024-01-01" 0 "F" [] id).1
      = Except.error (quotaErrorMsg 5)
    ∧ (createTextTransfer cW stQ 5 "m" none "2024-01-02" 0 "F" [] id).1
      = Except.ok "F" := by
  have h := c4_quota_ceiling_and_reset cW stQ 5 uQ "m" "p" "n" 10 none
    "2024-01-01" "2024-01-02" 0 "F" [] id rfl rfl rfl (by decide) (by decide)
    (by decide)
  exact ⟨h.1.1, h.2.2.1⟩

theorem checkUserLimits_transfers (st : BotState) (uid : Int)
    (today : String) :
    (checkUserLimits st uid today).2.transfers = st.transfers := by
  unfold checkUserLimits
  split
  · rfl
  · rfl

theorem checkFileSizeLimit_transfers (st : BotState) (fsize : Nat)
    (uid : Int) :
    (checkFileSizeLimit st fsize uid).2.transfers = st.transfers := by
  unfold checkFileSizeLimit
  split
  · rfl
  · rfl

theorem recordSent_transfers (st : BotState) (uid : Int) :
    (recordSent st uid).transfers = st.transfers := rfl

theorem withTransfers_transfers (st : BotState)
    (l : List (String × Transfer)) :
    (withTransfers st l).transfers = l := rfl

theorem newTextTransfer_empty_password (c : Crypto) (st : BotState)
    (uid : Int) (content : String) (now : Int) (fresh_id : String)
    (salt : List Nat) (encrypt : String → String) :
    (newTextTransfer c st uid content (some []) now fresh_id salt
      encrypt).password_hash = none := rfl

theorem newTextTransfer_expires_at (c : Crypto) (st : BotState) (uid : Int)
    (content : String) (password : Option (List Nat)) (now : Int)
    (fresh_id : String) (salt : List Nat) (encrypt : String → String) :
    (newTextTransfer c st uid content password now fresh_id salt
      encrypt).expires_at
      = now + (st.config.transfer_expiry_minutes : Int) * 60 := rfl

theorem newFileTransfer_empty_password (c : Crypto) (st : BotState)
    (uid : Int) (fp fn : String) (fsize : Nat) (now : Int)
    (fresh_id : String) (salt : List Nat) :
    (newFileTransfer c st uid fp fn fsize (some []) now fresh_id
      salt).password_hash = none := rfl

theorem newFileTransfer_expires_at (c : Crypto) (st : BotState) (uid : Int)
    (fp fn : String) (fsize : Nat) (password : Option (List Nat)) (now : Int)
    (fresh_id : String) (salt : List Nat) :
    (newFileTransfer c st uid fp fn fsize password now fresh_id
      salt).expires_at
      = now + (st.config.transfer_expiry_minutes : Int) * 60 := rfl

/-- C6 counterexample: when the freshly generated id collides with the key
of a live transfer, create performs a plain dictionary insert — there is no
retry — and the existing record (sender 1) is overwritten by the new one
(sender 9); the store still has a single entry afterwards. -/
theorem c6_collision_overwrites :
    (createTextTransfer cW stA 9 "m" none "d" 0 "A" [] id).1 = Except.ok "A"
    ∧ dictFind (createTextTransfer cW stA 9 "m" none "d" 0 "A" [] id).2.transfers
        "A" ≠ some tA
    ∧ (createTextTransfer cW stA 9 "m" none "d" 0 "A" [] id).2.transfers.length
        = 1 := by
  exact ⟨rfl, by decide, rfl⟩

/-- C6 amended: create inserts the freshly generated id with no collision
check, so uniqueness rests on the entropy of `secrets.token_urlsafe`
alone; when the generated id is not already a key, the new record is added
and every existing binding is preserved, but a colliding id silently
replaces the stored record. -/
theorem c6_fresh_id_preserves (c : Crypto) (st : BotState) (uid : Int)
    (content : String) (password : Option (List Nat)) (today : String)
    (now : Int) (fresh_id : String) (salt : List Nat)
    (encrypt : String → String)
    (hcheck : (checkUserLimits st uid today).1.1 = true) :
    (createTextTransfer c st uid content password today now fresh_id salt
      encrypt).1 = Except.ok fresh_id
    ∧ dictFind (createTextTransfer c st uid content password today now fresh_id
        salt encrypt).2.transfers fresh_id
      = some (newTextTransfer c st uid content password now fresh_id salt
          encrypt)
    ∧ (∀ k, k ≠ fresh_id →
        dictFind (createTextTransfer c st uid content password today now
          fresh_id salt encrypt).2.transfers k = dictFind st.transfers k) := by
  rw [createTextTransfer_ok c st uid content password today now fresh_id salt
    encrypt hcheck]
  refine ⟨rfl, ?_, ?_⟩
  · simp [recordSent_transfers, withTransfers_transfers, dictFind_insert_self]
  · intro k hk
    simp [recordSent_transfers, withTransfers_transfers,
      dictFind_insert_ne _ _ _ _ hk, checkUserLimits_transfers]

theorem c6_fresh_id_preserves_witness :
    (createTextTransfer cW stA 9 "m" none "d" 0 "Z" [] id).1 = Except.ok "Z"
    ∧ dictFind (createTextTransfer cW stA 9 "m" none "d" 0 "Z" [] id).2.transfers
        "A" = dictFind stA.transfers "A" := by
  have h := c6_fresh_id_preserves cW stA 9 "m" none "d" 0 "Z" [] id rfl
  exact ⟨h.1, h.2.2 "A" (by decide)⟩

/-- Fixture: a known free-tier user whose stored reset date is behind. -/
def uC : User :=
  { user_id := 5, username := none, is_premium := false,
    files_sent_today := 3, last_reset_date := "2024-01-01",
    total_transfers := 3 }

def stC : BotState :=
  { users := [(5, uC)], transfers := [], admin_ids := [],
    superuser_ids := [], config := defaultConfig, files := [],
    persisted_users := [], persisted_transfers := [] }

/-- C7 counterexample: after a calendar-day rollover, `_check_user_limits`
resets the stored counter (3 becomes 0) while `_check_file_size_limit`
leaves it at 3, so the two checks do not perform the reset identically and
observe different counter states. -/
theorem c7_reset_divergence :
    (dictFind (checkUserLimits stC 5 "2024-01-02").2.users 5).map
        User.files_sent_today = some 0
    ∧ (dictFind (checkFileSizeLimit stC 100 5).2.users 5).map
        User.files_sent_today = some 3
    ∧ (checkUserLimits stC 5 "2024-01-02").2.users
        ≠ (checkFileSizeLimit stC 100 5).2.users := by
  exact ⟨rfl, rfl, by decide⟩

/-- C7 amended: the lazy daily reset is performed by `_check_user_limits`
alone; `_check_file_size_limit` leaves the user dictionary — and with it
the daily counter — unchanged (it never reads the counter either). -/
theorem c7_reset_only_in_count_check (st : BotState) (uid : Int) (u : User)
    (today : String) (fsize : Nat)
    (hadm : isAdmin st uid = false)
    (hu : dictFind st.users uid = some u)
    (hday : ¬ u.last_reset_date = today)
    (hpos : 0 < (if u.is_premium then st.config.premium_transfers_per_hour
              else st.config.free_transfers_per_hour)) :
    dictFind (checkUserLimits st uid today).2.users uid
      = some (resetUser u today)
    ∧ (checkFileSizeLimit st fsize uid).2.users = st.users := by
  constructor
  · rw [checkUserLimits_day_rollover st uid u today hadm hu hday hpos]
    exact dictFind_insert_self _ _ _
  · simp [checkFileSizeLimit, hadm, getUser_known st uid u none hadm hu,
      saveData]

theorem c7_reset_only_in_count_check_witness :
    dictFind (checkUserLimits stC 5 "2024-01-02").2.users 5
      = some (resetUser uC "2024-01-02")
    ∧ (checkFileSizeLimit stC 100 5).2.users = stC.users :=
  c7_reset_only_in_count_check stC 5 uC "2024-01-02" 100 rfl rfl
    (by decide) (by decide)

/-- Fixture: a live password-protected transfer from sender 7. -/
def tE : Transfer :=
  { transfer_id := "T", sender_id := 7, recipient_id := none,
    file_path := none, encrypted_content := some "s",
    password_hash := some [1, 2, 3], created_at := 0, expires_at := 100,
    is_file := false }

def stE : BotState :=
  { users := [], transfers := [("T", tE)], admin_ids := [],
    superuser_ids := [], config := defaultConfig, files := [],
    persisted_users := [], persisted_transfers := [] }

/-- C8 (code bug): the delete callback fetches the transfer with **no**
password, so on a password-protected transfer the password gate makes the
lookup return `None` and the sender of the transfer is refused — the
handler reports failure and the transfer stays in the store, although the
requester is exactly the sender. -/
theorem c8_sender_cannot_delete_protected :
    (handleDeleteCallback cW stE "T" 7 0).1 = false
    ∧ dictFind (handleDeleteCallback cW stE "T" 7 0).2.transfers "T"
        = some tE := by
  exact ⟨rfl, rfl⟩

/-- Fixture: an empty store with an admin configured, user 5 unknown. -/
def stD : BotState :=
  { users := [], transfers := [], admin_ids := [9], superuser_ids := [],
    config := defaultConfig, files := [], persisted_users := [],
    persisted_transfers := [] }

/-- C9 counterexample: `get_user_stats` on an unknown user id creates the
user record and rewrites the persisted snapshot, so it does not leave the
user store and the persisted state unchanged. -/
theorem c9_stats_mutates_unknown_user :
    (getUserStats stD 5).2.users ≠ stD.users
    ∧ (getUserStats stD 5).2.persisted_users ≠ stD.persisted_users := by
  exact ⟨by decide, by decide⟩

/-- C9 amended: for an already-known, non-privileged user the statistics
call returns exactly the documented combination of the stored counters
with the tier ceilings and leaves the user and transfer dictionaries
unchanged; it is not free of side effects in general, because it runs
`_get_user`, which creates missing records, forces `is_premium` for
admins, and rewrites the persisted snapshot. -/
theorem c9_stats_view (st : BotState) (uid : Int) (u : User)
    (hadm : isAdmin st uid = false)
    (hu : dictFind st.users uid = some u) :
    (getUserStats st uid).2.users = st.users
    ∧ (getUserStats st uid).2.transfers = st.transfers
    ∧ (getUserStats st uid).1 =
      { is_premium := u.is_premium
        transfers_used_today := u.files_sent_today
        transfers_remaining_today :=
          ((if u.is_premium then st.config.premium_transfers_per_hour
            else st.config.free_transfers_per_hour : Nat) : Int)
          - (u.files_sent_today : Int)
        total_transfers := u.total_transfers
        max_file_size_mb :=
          (if u.is_premium then st.config.premium_file_size_limit
           else st.config.free_file_size_limit) / (1024 * 1024)
        max_transfers_per_day :=
          if u.is_premium then st.config.premium_transfers_per_hour
          else st.config.free_transfers_per_hour } := by
  simp [getUserStats, getUser_known st uid u none hadm hu, saveData]

theorem c9_stats_view_witness :
    (getUserStats stC 5).2.users = stC.users
    ∧ (getUserStats stC 5).1.transfers_remaining_today = 2 := by
  have h := c9_stats_view stC 5 uC rfl rfl
  refine ⟨h.1, ?_⟩
  rw [h.2.2]
  decide

theorem createFileTransfer_ok (c : Crypto) (st : BotState) (uid : Int)
    (fp fn : String) (fsize : Nat) (password : Option (List Nat))
    (today : String) (now : Int) (fresh_id : String) (salt : List Nat)
    (hcheck : (checkUserLimits st uid today).1.1 = true)
    (hsize : (checkFileSizeLimit (checkUserLimits st uid today).2 fsize
        uid).1.1 = true) :
    createFileTransfer c st uid fp fn fsize password today now fresh_id salt
      = (Except.ok fresh_id,
         recordSent
           (withTransfers
             (checkFileSizeLimit (checkUserLimits st uid today).2 fsize uid).2
             (dictInsert (checkFileSizeLimit (checkUserLimits st uid today).2
                 fsize uid).2.transfers fresh_id
               (newFileTransfer c st uid fp fn fsize password now fresh_id
                 salt)))
           uid) := by
  simp [createFileTransfer, hcheck, hsize]

/-- C10: supplying the empty string as the password creates a transfer
whose `password_hash` is `None`, and a later fetch with no password
returns it — for both the text and the file create operations. -/
theorem c10_empty_password_unprotected (c : Crypto) (st : BotState)
    (uid : Int) (content fp fn : String) (fsize : Nat) (today : String)
    (now now2 : Int) (fresh_id : String) (salt : List Nat)
    (encrypt : String → String)
    (hcheck : (checkUserLimits st uid today).1.1 = true)
    (hsize : (checkFileSizeLimit (checkUserLimits st uid today).2 fsize
        uid).1.1 = true)
    (hnow2 : ¬ now + (st.config.transfer_expiry_minutes : Int) * 60 < now2) :
    (∃ t, (createTextTransfer c st uid content (some []) today now fresh_id
          salt encrypt).1 = Except.ok fresh_id
       ∧ dictFind (createTextTransfer c st uid content (some []) today now
           fresh_id salt encrypt).2.transfers fresh_id = some t
       ∧ t.password_hash = none
       ∧ (getTransfer c (createTextTransfer c st uid content (some []) today
           now fresh_id salt encrypt).2 fresh_id none now2).1 = some t)
    ∧ (∃ t, (createFileTransfer c st uid fp fn fsize (some []) today now
          fresh_id salt).1 = Except.ok fresh_id
       ∧ dictFind (createFileTransfer c st uid fp fn fsize (some []) today
           now fresh_id salt).2.transfers fresh_id = some t
       ∧ t.password_hash = none
       ∧ (getTransfer c (createFileTransfer c st uid fp fn fsize (some [])
           today now fresh_id salt).2 fresh_id none now2).1 = some t) := by
  constructor
  · rw [createTextTransfer_ok c st uid content (some []) today now fresh_id
      salt encrypt hcheck]
    have hfind : dictFind
        (recordSent
          (withTransfers (checkUserLimits st uid today).2
            (dictInsert (checkUserLimits st uid today).2.transfers fresh_id
              (newTextTransfer c st uid content (some []) now fresh_id salt
                encrypt)))
          uid).transfers fresh_id
        = some (newTextTransfer c st uid content (some []) now fresh_id salt
            encrypt) := by
      rw [recordSent_transfers, withTransfers_transfers]
      exact dictFind_insert_self _ _ _
    refine ⟨_, rfl, hfind, rfl, ?_⟩
    simp [getTransfer, hfind, hnow2, newTextTransfer_empty_password,
      newTextTransfer_expires_at, hashTruthy]
  · rw [createFileTransfer_ok c st uid fp fn fsize (some []) today now
      fresh_id salt hcheck hsize]
    have hfind : dictFind
        (recordSent
          (withTransfers
            (checkFileSizeLimit (checkUserLimits st uid today).2 fsize uid).2
            (dictInsert (checkFileSizeLimit (checkUserLimits st uid today).2
                fsize uid).2.transfers fresh_id
              (newFileTransfer c st uid fp fn fsize (some []) now fresh_id
                salt)))
          uid).transfers fresh_id
        = some (newFileTransfer c st uid fp fn fsize (some []) now fresh_id
            salt) := by
      rw [recordSent_transfers, withTransfers_transfers]
      exact dictFind_insert_self _ _ _
    refine ⟨_, rfl, hfind, rfl, ?_⟩
    simp [getTransfer, hfind, hnow2, newFileTransfer_empty_password,
      newFileTransfer_expires_at, hashTruthy]

theorem c10_empty_password_unprotected_witness :
    ∃ t, (createTextTransfer cW stA 9 "m" (some []) "d" 0 "Z" [] id).1
          = Except.ok "Z"
       ∧ dictFind (createTextTransfer cW stA 9 "m" (some []) "d" 0 "Z" []
           id).2.transfers "Z" = some t
       ∧ t.password_hash = none
       ∧ (getTransfer cW (createTextTransfer cW stA 9 "m" (some []) "d" 0 "Z"
           [] id).2 "Z" none 0).1 = some t :=
  (c10_empty_password_unprotected cW stA 9 "m" "p" "n" 10 "d" 0 0 "Z" [] id
    rfl rfl (by decide)).1

end SecShare
